import Mathlib

/-!
Verification development for the `fritzbox_upnp` package of the
fritzbox_exporter repository (file `upnp.go`).

The development is a shallow embedding in Lean 4 of the pure computational
content of the package:

* the HTTP Digest authentication engine (`getDigestAuthHeader`),
* the SOAP action invoker (`CallWithArguments`, `createCallHttpRequest`),
* the SOAP response parser (`parseSoapResponse`),
* the value decoder (`convertResult`),
* the service-tree loader (`Root.load`, `Root.loadTr64`, `fillServices`,
  `LoadServices`).

Effects are made explicit:

* HTTP transports are oracles passed as parameters: a `Fetcher` maps a URL to
  a transport failure or a response, and `CallWithArguments` consumes a list
  of responses positionally (one per round trip of `http.DefaultClient.Do`);
  the requests that would have been sent are returned as a trace.
* The MD5 hash (`crypto/md5` plus hex rendering) and the random client nonce
  (`crypto/rand` plus hex rendering) are parameters of the digest engine,
  since they are external library effects; every theorem below holds for all
  instantiations.
* XML documents decoded by `encoding/xml` struct unmarshaling are modelled as
  already-tokenized/already-shaped data (`XmlDoc`, `XmlToken`): Go decoding of
  a document whose elements do not match the target schema succeeds with zero
  values, and malformed XML is a decode error; both behaviors are reproduced.
* Go maps are modelled as association lists in which insertion overwrites and
  lookup returns the most recent binding (`alInsert`, `alGet`), matching the
  unique-key semantics of Go maps.

Machine integers from `strconv` are modelled as `Nat`/`Int` with explicit
range checks against 2^64 and 2^63 mirroring `ParseUint(s, 10, 64)` and
`ParseInt(s, 10, 64)`.
-/

namespace FritzboxUpnp

/-- Decidable equality for `Except`, needed to evaluate concrete runs of the
embedded functions inside `decide`. -/
instance {ε α : Type} [DecidableEq ε] [DecidableEq α] : DecidableEq (Except ε α) := fun a b =>
  match a, b with
  | .ok x, .ok y =>
    if h : x = y then .isTrue (by rw [h]) else .isFalse (by intro hc; cases hc; exact h rfl)
  | .error x, .error y =>
    if h : x = y then .isTrue (by rw [h]) else .isFalse (by intro hc; cases hc; exact h rfl)
  | .ok _, .error _ => .isFalse (by intro hc; cases hc)
  | .error _, .ok _ => .isFalse (by intro hc; cases hc)

/-! ## Association-list maps with Go map semantics -/

/-- Insertion into an association list used as a Go map: any previous binding
of the key is removed and the new binding is appended. -/
def alInsert {α : Type} (m : List (String × α)) (k : String) (v : α) : List (String × α) :=
  m.filter (fun p => p.1 ≠ k) ++ [(k, v)]

/-- Lookup in an association list used as a Go map: the most recent binding
wins (for lists built with `alInsert` there is at most one binding per key). -/
def alGet {α : Type} (m : List (String × α)) (k : String) : Option α :=
  m.foldl (fun acc p => if p.1 = k then some p.2 else acc) none

/-- Lookup with the Go map default for string-valued maps: a missing key
yields the empty string, as in `d["algorithm"]` on a `map[string]string`. -/
def dget (m : List (String × String)) (k : String) : String :=
  (alGet m k).getD ""

/-! ## Character and string utilities embedding the Go `strings` helpers -/

/-- Helper for `splitOnChar`; the accumulator holds the current field in
reverse. -/
def splitOnCharAux (c : Char) : List Char → List Char → List (List Char)
  | [], acc => [acc.reverse]
  | x :: xs, acc =>
    if x = c then acc.reverse :: splitOnCharAux c xs []
    else splitOnCharAux c xs (x :: acc)

/-- Embedding of `strings.Split(s, sep)` for a one-character separator, at the
character-list level: splits at every separator occurrence and keeps empty
fields, so the result is never empty. -/
def splitOnChar (c : Char) (l : List Char) : List (List Char) :=
  splitOnCharAux c l []

/-- Helper for `splitFirstEq`; scans for the first separator occurrence. -/
def splitFirstAux (c : Char) : List Char → List Char → Option (List Char × List Char)
  | [], _ => none
  | x :: xs, acc =>
    if x = c then some (acc.reverse, xs) else splitFirstAux c xs (x :: acc)

/-- Embedding of `strings.SplitN(kv, "=", 2)`: `none` when the separator never
occurs (the Go result has a single part), otherwise the text before the first
`=` and everything after it. -/
def splitFirstEq (l : List Char) : Option (List Char × List Char) :=
  splitFirstAux '=' l []

/-- Character class of `strings.Trim(x, "\x22 ")`: double quote or space. -/
def isTrimChar (c : Char) : Bool :=
  c = '"' || c = ' '

/-- Embedding of `strings.Trim(x, "\x22 ")`: removes leading and trailing
double quotes and spaces. -/
def trimQS (l : List Char) : List Char :=
  ((l.dropWhile isTrimChar).reverse.dropWhile isTrimChar).reverse

/-- Character-list core of `strings.HasPrefix`. -/
def listStartsWith : List Char → List Char → Bool
  | [], _ => true
  | _ :: _, [] => false
  | a :: as, b :: bs => a = b && listStartsWith as bs

/-- Embedding of `strings.HasPrefix(s, pre)`. -/
def strStartsWith (s pre : String) : Bool :=
  listStartsWith pre.data s.data

/-- Embedding of `strings.Join(elems, ":")`. -/
def joinColon : List String → String
  | [] => ""
  | [s] => s
  | s :: rest => s ++ ":" ++ joinColon rest

/-! ## Number parsing and formatting embedding `strconv` and `fmt` -/

/-- Value of a decimal digit character, `none` for any other character. -/
def digitVal (c : Char) : Option Nat :=
  if '0' ≤ c ∧ c ≤ '9' then some (c.toNat - 48) else none

/-- Accumulates the value of a decimal digit string; `none` on the first
non-digit character. -/
def parseDigitsAux : List Char → Nat → Option Nat
  | [], acc => some acc
  | c :: cs, acc =>
    match digitVal c with
    | none => none
    | some d => parseDigitsAux cs (acc * 10 + d)

/-- Embedding of `strconv.ParseUint(s, 10, 64)`: no sign permitted, at least
one digit required, and values of 2^64 or more are a range error. The numeric
result is returned as a `Nat` that is provably below 2^64 on success. -/
def parseUint64 (s : String) : Except String Nat :=
  match s.data with
  | [] => .error ("strconv.ParseUint: parsing " ++ s ++ ": invalid syntax")
  | l =>
    match parseDigitsAux l 0 with
    | none => .error ("strconv.ParseUint: parsing " ++ s ++ ": invalid syntax")
    | some n =>
      if n < 2 ^ 64 then .ok n
      else .error ("strconv.ParseUint: parsing " ++ s ++ ": value out of range")

/-- Embedding of `strconv.ParseInt(s, 10, 64)`: one optional leading sign,
then at least one digit; the value must lie in the signed 64-bit range. -/
def parseInt64 (s : String) : Except String Int :=
  match s.data with
  | [] => .error ("strconv.ParseInt: parsing " ++ s ++ ": invalid syntax")
  | '+' :: rest =>
    match parseDigitsAux rest 0 with
    | none => .error ("strconv.ParseInt: parsing " ++ s ++ ": invalid syntax")
    | some n =>
      if rest = [] then .error ("strconv.ParseInt: parsing " ++ s ++ ": invalid syntax")
      else if n ≤ 2 ^ 63 - 1 then .ok (Int.ofNat n)
      else .error ("strconv.ParseInt: parsing " ++ s ++ ": value out of range")
  | '-' :: rest =>
    match parseDigitsAux rest 0 with
    | none => .error ("strconv.ParseInt: parsing " ++ s ++ ": invalid syntax")
    | some n =>
      if rest = [] then .error ("strconv.ParseInt: parsing " ++ s ++ ": invalid syntax")
      else if n ≤ 2 ^ 63 then .ok (-(Int.ofNat n))
      else .error ("strconv.ParseInt: parsing " ++ s ++ ": value out of range")
  | l =>
    match parseDigitsAux l 0 with
    | none => .error ("strconv.ParseInt: parsing " ++ s ++ ": invalid syntax")
    | some n =>
      if n ≤ 2 ^ 63 - 1 then .ok (Int.ofNat n)
      else .error ("strconv.ParseInt: parsing " ++ s ++ ": value out of range")

/-- Lower-case hexadecimal digit for a value below 16, as produced by the Go
`%x` verb. -/
def hexDigitChar (n : Nat) : Char :=
  if n < 10 then Char.ofNat (48 + n) else Char.ofNat (87 + n)

/-- Fuel-driven hexadecimal rendering of a natural number (most significant
digit first); 16 units of fuel suffice for any 64-bit value. -/
def natHexAux : Nat → Nat → List Char → List Char
  | 0, _, acc => acc
  | _ + 1, 0, acc => acc
  | fuel + 1, n, acc => natHexAux fuel (n / 16) (hexDigitChar (n % 16) :: acc)

/-- Embedding of `fmt.Sprintf("%08x", n)` for natural `n`: lower-case
hexadecimal, left-padded with zeros to eight characters. -/
def sprintf08x (n : Nat) : String :=
  let digits := if n = 0 then ['0'] else natHexAux 16 n []
  ⟨List.replicate (8 - digits.length) '0' ++ digits⟩

/-! ## XML text escaping embedding `xml.EscapeText` -/

/-- Escape sequence of one character per `xml.EscapeText` (the characters it
rewrites; every other valid character is passed through). -/
def xmlEscapeChar (c : Char) : List Char :=
  if c = '"' then "&#34;".data
  else if c = '&' then "&amp;".data
  else if c = '<' then "&lt;".data
  else if c = '>' then "&gt;".data
  else if c = '\t' then "&#x9;".data
  else if c = '\n' then "&#xA;".data
  else if c = '\r' then "&#xD;".data
  else if c = Char.ofNat 39 then "&#39;".data
  else [c]

/-- Embedding of `xml.EscapeText` applied to a string value. -/
def xmlEscape (s : String) : String :=
  ⟨(s.data.map xmlEscapeChar).flatten⟩

/-! ## Digest authentication engine, embedding `getDigestAuthHeader` -/

/-- Embedding of the challenge parsing loop of `getDigestAuthHeader`: the text
after the seven-character prefix `Digest ` is split at commas; each part with
an `=` is split at the first `=`, both halves are trimmed of quotes and
spaces, and the pair is stored in the directive map; parts without `=` are
skipped. -/
def parseDigestDirectives (wwwAuth : String) : List (String × String) :=
  (splitOnChar ',' (wwwAuth.data.drop 7)).foldl
    (fun d kv =>
      match splitFirstEq kv with
      | none => d
      | some (k, v) => alInsert d ⟨trimQS k⟩ ⟨trimQS v⟩)
    []

/-- Embedding of the algorithm-directive check of `getDigestAuthHeader`: an
empty (that is, absent or empty-valued) `algorithm` directive is defaulted to
`MD5`; a nonempty value other than `MD5` is an unsupported-scheme error. -/
def checkAlgorithm (d : List (String × String)) : Except String (List (String × String)) :=
  if dget d "algorithm" = "" then .ok (alInsert d "algorithm" "MD5")
  else if dget d "algorithm" = "MD5" then .ok d
  else .error ("digest algorithm not supported: " ++ dget d "algorithm" ++ " != MD5")

/-- Intermediate values of one run of `getDigestAuthHeader`, mirroring the
local variables `ha1`, `ha2`, `cnonce`, `nc`, `response` and the returned
header string of the Go function. -/
structure DigestParts where
  ha1 : String
  ha2 : String
  cnonce : String
  nc : String
  response : String
  header : String
deriving DecidableEq, Repr

/-- Embedding of the body of `getDigestAuthHeader`. The MD5 hex digest
`fmt.Sprintf("%x", md5.Sum(...))` and the already-rendered random client
nonce `fmt.Sprintf("%x", cn)` are parameters; `controlUrl` stands for
`a.service.ControlUrl`. Note `nc` is computed from the local counter
`nCounter := 1` on every invocation. -/
def digestAuthParts (md5hex : String → String) (cnonce : String)
    (wwwAuth username password controlUrl : String) : Except String DigestParts :=
  if strStartsWith wwwAuth "Digest " = false then
    .error ("WWW-Authentication header is not Digest: " ++ wwwAuth)
  else
    match checkAlgorithm (parseDigestDirectives wwwAuth) with
    | .error e => .error e
    | .ok d =>
      if dget d "qop" ≠ "auth" then
        .error ("digest qop not supported: " ++ dget d "qop" ++ " != auth")
      else
        let ha1 := md5hex (username ++ ":" ++ dget d "realm" ++ ":" ++ password)
        let ha2 := md5hex ("POST:" ++ controlUrl)
        let nc := sprintf08x 1
        let ds := joinColon [ha1, dget d "nonce", nc, cnonce, dget d "qop", ha2]
        let response := md5hex ds
        .ok { ha1 := ha1, ha2 := ha2, cnonce := cnonce, nc := nc, response := response,
              header := "Digest username=\"" ++ username ++ "\", realm=\"" ++ dget d "realm"
                ++ "\", nonce=\"" ++ dget d "nonce" ++ "\", uri=\"" ++ controlUrl
                ++ "\", cnonce=\"" ++ cnonce ++ "\", nc=" ++ nc ++ ", qop=" ++ dget d "qop"
                ++ ", response=\"" ++ response ++ "\", algorithm=" ++ dget d "algorithm" }

/-- Embedding of `getDigestAuthHeader`: the formatted Authorization header on
success, an error otherwise. -/
def getDigestAuthHeader (md5hex : String → String) (cnonce : String)
    (wwwAuth username password controlUrl : String) : Except String String :=
  (digestAuthParts md5hex cnonce wwwAuth username password controlUrl).map (·.header)

/-! ## Data model of the UPnP tree -/

/-- Embedding of `StateVariable`: a state variable declared by a service. -/
structure StateVariable where
  name : String
  dataType : String
  defaultValue : String
deriving DecidableEq, Repr

/-- Embedding of `Argument`: an argument of an action; `stateVariable` is the
resolved reference to the related state variable and is `none` while the
Go pointer `StateVariable` is nil (freshly decoded or never matched). -/
structure Argument where
  name : String
  direction : String
  relatedStateVariable : String
  stateVariable : Option StateVariable
deriving DecidableEq, Repr

/-- Embedding of `Action`: `argumentMap` mirrors the Go map `ArgumentMap`
indexed by argument name (empty when freshly decoded). -/
structure Action where
  name : String
  arguments : List Argument
  argumentMap : List (String × Argument)
deriving DecidableEq, Repr

/-- Embedding of `Service`: `actions` mirrors the Go map `Actions` indexed by
action name (empty when freshly decoded from a device description). -/
structure Service where
  serviceType : String
  serviceId : String
  controlUrl : String
  eventSubUrl : String
  scpdUrl : String
  actions : List (String × Action)
  stateVariables : List StateVariable
deriving DecidableEq, Repr

/-- Embedding of `Device`: the recursive device tree of a description
document, with its directly declared services and its nested sub-devices. -/
inductive Device where
  | mk (deviceType friendlyName manufacturer manufacturerUrl modelDescription modelName
        modelNumber modelUrl udn presentationUrl : String)
       (services : List Service) (devices : List Device)

/-- Services directly declared by a device. -/
def Device.services : Device → List Service
  | .mk _ _ _ _ _ _ _ _ _ _ s _ => s

/-- Nested sub-devices of a device. -/
def Device.devices : Device → List Device
  | .mk _ _ _ _ _ _ _ _ _ _ _ d => d

/-- Device with all fields at their Go zero values, as produced by
`encoding/xml` when no element of the document matches the schema. -/
def emptyDevice : Device :=
  .mk "" "" "" "" "" "" "" "" "" "" [] []

/-- Embedding of `Root`: base URL, credentials, the decoded device tree, and
the map of all services of the tree indexed by service type. -/
structure Root where
  baseUrl : String
  username : String
  password : String
  device : Device
  services : List (String × Service)

/-! ## Value decoder, embedding `convertResult` -/

/-- Dynamic result value: the Go code stores `string`, `bool`, `uint64` or
`int64` values in the `interface` result map. -/
inductive Value where
  | str (s : String)
  | boolean (b : Bool)
  | uint (n : Nat)
  | int (i : Int)
deriving DecidableEq, Repr

/-- Result of a call: the Go `Result` map indexed by state-variable name. -/
abbrev ResultMap : Type := List (String × Value)

/-- Embedding of `convertResult`: decodes the raw element text at the data
type of the argument's resolved state variable. Dereferencing the nil Go
pointer `arg.StateVariable` is modelled as an error (in Go it is a runtime
panic). -/
def convertResult (val : String) (arg : Argument) : Except String Value :=
  match arg.stateVariable with
  | none => .error "runtime error: nil StateVariable dereference"
  | some sv =>
    match sv.dataType with
    | "string" => .ok (.str val)
    | "boolean" => .ok (.boolean (val == "1"))
    | "ui1" | "ui2" | "ui4" =>
      match parseUint64 val with
      | .error e => .error e
      | .ok n => .ok (.uint n)
    | "i4" =>
      match parseInt64 val with
      | .error e => .error e
      | .ok i => .ok (.int i)
    | "dateTime" | "uuid" => .ok (.str val)
    | dt => .error ("unknown datatype: " ++ dt ++ " (" ++ val ++ ")")

/-! ## SOAP response parser, embedding `parseSoapResponse` -/

/-- Token stream of `xml.Decoder.Token` on a response body: start and end
elements carry their local names; `other` stands for any further token kind
(comments, directives, processing instructions); `errTok` marks the position
at which the decoder would return a non-EOF error, and the end of the list is
`io.EOF`. -/
inductive XmlToken where
  | startElement (localName : String)
  | endElement (localName : String)
  | charData (s : String)
  | other
  | errTok (msg : String)
deriving DecidableEq, Repr

/-- Name of an argument's resolved state variable (the Go expression
`arg.StateVariable.Name`; only evaluated after `convertResult` has succeeded,
hence never on a nil reference). -/
def argStateVariableName (arg : Argument) : String :=
  match arg.stateVariable with
  | some sv => sv.name
  | none => ""

/-- Embedding of the token loop of `parseSoapResponse`: every start element
whose local name is bound in the action's `ArgumentMap` has its immediately
following token examined — an end element yields the empty string, character
data yields its text, a decoder error is surfaced (end of stream is `io.EOF`
there), and any other token kind is `ErrInvalidSOAPResponse`; the decoded
value is stored under the state-variable name. All other tokens are
skipped. -/
def parseSoapLoop (a : Action) : List XmlToken → ResultMap → Except String ResultMap
  | [], res => .ok res
  | .errTok e :: _, _ => .error e
  | .startElement name :: rest, res =>
    match alGet a.argumentMap name with
    | none => parseSoapLoop a rest res
    | some arg =>
      match rest with
      | [] => .error "EOF"
      | .errTok e :: _ => .error e
      | .endElement _ :: rest2 =>
        match convertResult "" arg with
        | .error e => .error e
        | .ok v => parseSoapLoop a rest2 (alInsert res (argStateVariableName arg) v)
      | .charData s :: rest2 =>
        match convertResult s arg with
        | .error e => .error e
        | .ok v => parseSoapLoop a rest2 (alInsert res (argStateVariableName arg) v)
      | .startElement _ :: _ => .error "invalid SOAP response"
      | .other :: _ => .error "invalid SOAP response"
  | .endElement _ :: rest, res => parseSoapLoop a rest res
  | .charData _ :: rest, res => parseSoapLoop a rest res
  | .other :: rest, res => parseSoapLoop a rest res

/-- Embedding of `parseSoapResponse`: runs the token loop on the response
body starting from the fresh empty result map. -/
def parseSoapResponse (a : Action) (body : List XmlToken) : Except String ResultMap :=
  parseSoapLoop a body []

/-! ## SOAP action invoker, embedding `createCallHttpRequest` and
`CallWithArguments` -/

/-- Embedding of `ActionArgument`: a named input value for an action. -/
structure ActionArgument where
  name : String
  value : String
deriving DecidableEq, Repr

/-- Observable content of an outbound `http.Request` built by
`createCallHttpRequest` and possibly augmented with an Authorization header
by `CallWithArguments`. -/
structure HttpRequest where
  method : String
  url : String
  contentType : String
  soapAction : String
  body : String
  authorization : Option String
deriving DecidableEq, Repr

/-- Embedding of the argument serialization loop of `createCallHttpRequest`:
each argument renders as `SoapActionParamXML` with its value escaped by
`xml.EscapeText`. -/
def soapArgsString (actionArgs : List ActionArgument) : String :=
  actionArgs.foldl (fun acc aa => acc ++ "<" ++ aa.name ++ ">" ++ xmlEscape aa.value ++ "</" ++ aa.name ++ ">") ""

/-- Embedding of the `SoapActionXML` envelope format applied to the action
name, the service type and the serialized arguments. -/
def soapEnvelopeBody (actionName serviceType argsString : String) : String :=
  "<?xml version=\"1.0\" encoding=\"utf-8\"?>"
    ++ "<s:Envelope xmlns:s=\"http://schemas.xmlsoap.org/soap/envelope/\" s:encodingStyle=\"http://schemas.xmlsoap.org/soap/encoding/\">"
    ++ "<s:Body><u:" ++ actionName ++ " xmlns:u=" ++ serviceType ++ ">" ++ argsString
    ++ "</u:" ++ actionName ++ " xmlns:u=" ++ serviceType ++ "></s:Body>"
    ++ "</s:Envelope>"

/-- Embedding of `createCallHttpRequest`: a POST to the control URL joined to
the base URL, with the SOAP envelope as body and the Content-Type and
SOAPAction headers set; no Authorization header. The `baseUrl`, `serviceType`
and `controlUrl` parameters stand for the Go back-references
`a.service.Device.root.BaseUrl`, `a.service.ServiceType` and
`a.service.ControlUrl`. -/
def createCallHttpRequest (baseUrl serviceType controlUrl : String) (a : Action)
    (actionArgs : List ActionArgument) : HttpRequest :=
  { method := "POST"
    url := baseUrl ++ controlUrl
    contentType := "text/xml; charset=\"utf-8\""
    soapAction := serviceType ++ "#" ++ a.name
    body := soapEnvelopeBody a.name serviceType (soapArgsString actionArgs)
    authorization := none }

/-- SOAP fault content of a 500 response as decoded by `xml.Unmarshal` into
`SoapEnvelope` (the fields of `soapEnv.Body.Fault` that the code reads). -/
structure SoapFaultData where
  faultCode : String
  faultString : String
  errorCode : Int
  errorDescription : String
deriving DecidableEq, Repr

/-- Observable content of an inbound SOAP-call HTTP response: the status
code, the `WWW-Authenticate` header (empty string when absent, as with
`Header.Get`), the body as the token stream that `parseSoapResponse` would
read, and the body as the fault envelope that `xml.Unmarshal` would produce
on the 500 path (`Except.error` when the body is not well-formed XML). -/
structure SoapHttpResponse where
  status : Nat
  wwwAuthenticate : String
  bodyTokens : List XmlToken
  bodyFault : Except String SoapFaultData
deriving DecidableEq, Repr

/-- Embedding of `http.StatusText` for the status codes relevant here; other
codes render as the empty string. -/
def statusText (code : Nat) : String :=
  if code = 200 then "OK"
  else if code = 401 then "Unauthorized"
  else if code = 403 then "Forbidden"
  else if code = 404 then "Not Found"
  else if code = 500 then "Internal Server Error"
  else ""

/-- Embedding of the non-200 error-message construction of
`CallWithArguments`: the status text, refined on status 500 by decoding the
body as a SOAP fault envelope. -/
def non200ErrMsg (resp : SoapHttpResponse) : String :=
  if resp.status = 500 then
    match resp.bodyFault with
    | .error e => "error decoding SOAPFault: " ++ e
    | .ok fault =>
      if fault.faultString = "UPnPError" then
        "SAOPFault: " ++ fault.faultString ++ " " ++ toString fault.errorCode
          ++ " (" ++ fault.errorDescription ++ ")"
      else
        "SAOPFault: " ++ fault.faultString
  else
    statusText resp.status ++ " (" ++ toString resp.status ++ ")"

/-- Embedding of the tail of `CallWithArguments` after the final response is
known: a non-200 status is an error (with SOAP-fault refinement on 500),
status 200 hands the body to `parseSoapResponse`. -/
def finishCall (a : Action) (resp : SoapHttpResponse) : Except String ResultMap :=
  if resp.status ≠ 200 then .error (a.name ++ ": " ++ non200ErrMsg resp)
  else parseSoapResponse a resp.bodyTokens

/-- Embedding of `CallWithArguments`. The transport is the `responses` list,
consumed positionally by the successive `http.DefaultClient.Do` calls
(`Except.error` being a transport failure); `md5hex` and `cnonce` feed the
digest engine of the retry. Besides the Go result, the trace of requests
that were handed to the transport is returned. An exhausted response list is
reported as a transport failure. -/
def CallWithArguments (md5hex : String → String) (cnonce : String)
    (responses : List (Except String SoapHttpResponse))
    (baseUrl username password serviceType controlUrl : String)
    (a : Action) (actionArgs : List ActionArgument) :
    Except String ResultMap × List HttpRequest :=
  let req := createCallHttpRequest baseUrl serviceType controlUrl a actionArgs
  match (responses.get? 0).getD (.error "transport: no response") with
  | .error e => (.error e, [req])
  | .ok resp =>
    if resp.status = 401 then
      if resp.wwwAuthenticate ≠ "" ∧ username ≠ "" ∧ password ≠ "" then
        match getDigestAuthHeader md5hex cnonce resp.wwwAuthenticate username password controlUrl with
        | .error e => (.error (a.name ++ ": " ++ e), [req])
        | .ok authHeader =>
          let req2 := { createCallHttpRequest baseUrl serviceType controlUrl a actionArgs with
                        authorization := some authHeader }
          match (responses.get? 1).getD (.error "transport: no response") with
          | .error e => (.error (a.name ++ ": " ++ e), [req, req2])
          | .ok resp2 => (finishCall a resp2, [req, req2])
      else
        (.error (a.name ++ ": Unauthorized, but no username and password given"), [req])
    else
      (finishCall a resp, [req])

/-! ## Service tree loader, embedding `load`, `loadTr64`, `fillServices` and
`LoadServices` -/

/-- Body of a fetched description document, as `encoding/xml` decoding sees
it: a device description, an SCPD document (actions fresh from decoding, so
with empty `argumentMap`s and nil state-variable references), or malformed
XML. -/
inductive XmlDoc where
  | deviceDoc (d : Device)
  | scpdDoc (actions : List Action) (stateVariables : List StateVariable)
  | malformed (msg : String)

/-- Response of one `http.Get` during loading: the HTTP status code and the
body document. -/
structure FetchResponse where
  status : Nat
  body : XmlDoc

/-- Transport oracle for the loader: maps a URL to a transport failure (the
non-nil `err` of `http.Get`) or a response. Note an `http.Get` that reaches
the server yields a response whatever the status code. -/
def Fetcher : Type := String → Except String FetchResponse

/-- Decoding a fetched body into the `Root`/`Device` schema, as
`xml.Decoder.Decode(r)` behaves: malformed XML errors; any well-formed
document whose elements do not match the schema decodes to zero values. -/
def decodeDeviceDoc : XmlDoc → Except String Device
  | .deviceDoc d => .ok d
  | .scpdDoc _ _ => .ok emptyDevice
  | .malformed e => .error e

/-- Decoding a fetched body into the `scpdRoot` schema, as
`xml.Decoder.Decode(&scpd)` behaves: malformed XML errors; any well-formed
document whose elements do not match the schema decodes to empty lists. -/
def decodeScpdDoc : XmlDoc → Except String (List Action × List StateVariable)
  | .scpdDoc as svs => .ok (as, svs)
  | .deviceDoc _ => .ok ([], [])
  | .malformed e => .error e

/-- Embedding of the state-variable resolution loop of `fillServices`: every
state variable of the service whose name equals the argument's
`RelatedStateVariable` is assigned in turn, so the last match wins and the
reference is left as it was (nil after decoding) when nothing matches. -/
def resolveArgument (svars : List StateVariable) (arg : Argument) : Argument :=
  { arg with stateVariable :=
      (svars.foldl (fun acc sv => if arg.relatedStateVariable = sv.name then some sv else acc)
        arg.stateVariable) }

/-- Embedding of the per-action work of `fillServices`: resolve every
argument and build the fresh `ArgumentMap` indexed by argument name. -/
def resolveAction (svars : List StateVariable) (a : Action) : Action :=
  let args := a.arguments.map (resolveArgument svars)
  { a with arguments := args,
           argumentMap := args.foldl (fun m arg => alInsert m arg.name arg) [] }

/-- Embedding of the per-service work of `fillServices`: fetch the SCPD
document at the service's SCPD URL joined to the base URL, decode it, build
the action map indexed by action name, resolve each registered action, store
the state-variable list, and register the service in the accumulated service
map under its service type. -/
def loadSCPDService (fetch : Fetcher) (baseUrl : String)
    (acc : List (String × Service)) (s : Service) : Except String (List (String × Service)) :=
  match fetch (baseUrl ++ s.scpdUrl) with
  | .error e => .error e
  | .ok resp =>
    match decodeScpdDoc resp.body with
    | .error e => .error e
    | .ok (scpdActions, svars) =>
      let actionsMap := scpdActions.foldl (fun m a => alInsert m a.name a) []
      let actionsMap := actionsMap.map (fun p => (p.1, resolveAction svars p.2))
      let svc := { s with actions := actionsMap, stateVariables := svars }
      .ok (alInsert acc svc.serviceType svc)

mutual

/-- Embedding of `fillServices`: process the device's own services in order,
then recurse into each nested sub-device, accumulating the root's service
map and aborting on the first error. -/
def fillServices (fetch : Fetcher) (baseUrl : String)
    (acc : List (String × Service)) : Device → Except String (List (String × Service))
  | .mk _ _ _ _ _ _ _ _ _ _ services devices =>
    match services.foldlM (loadSCPDService fetch baseUrl) acc with
    | .error e => .error e
    | .ok acc2 => fillDeviceList fetch baseUrl acc2 devices

/-- Embedding of the sub-device loop at the end of `fillServices`. -/
def fillDeviceList (fetch : Fetcher) (baseUrl : String)
    (acc : List (String × Service)) : List Device → Except String (List (String × Service))
  | [] => .ok acc
  | d :: ds =>
    match fillServices fetch baseUrl acc d with
    | .error e => .error e
    | .ok acc2 => fillDeviceList fetch baseUrl acc2 ds

end

/-- Embedding of `(*Root).load`: fetch `igddesc.xml` under the base URL,
decode the device tree, and fill the service map. The HTTP status code of
the response is never inspected. -/
def rootLoad (fetch : Fetcher) (baseUrl username password : String) : Except String Root :=
  match fetch (baseUrl ++ "/igddesc.xml") with
  | .error e => .error e
  | .ok resp =>
    match decodeDeviceDoc resp.body with
    | .error e => .error e
    | .ok dev =>
      match fillServices fetch baseUrl [] dev with
      | .error e => .error e
      | .ok services =>
        .ok { baseUrl := baseUrl, username := username, password := password,
              device := dev, services := services }

/-- Embedding of `(*Root).loadTr64`: identical to `load` but fetching
`tr64desc.xml`. -/
def rootLoadTr64 (fetch : Fetcher) (baseUrl username password : String) : Except String Root :=
  match fetch (baseUrl ++ "/tr64desc.xml") with
  | .error e => .error e
  | .ok resp =>
    match decodeDeviceDoc resp.body with
    | .error e => .error e
    | .ok dev =>
      match fillServices fetch baseUrl [] dev with
      | .error e => .error e
      | .ok services =>
        .ok { baseUrl := baseUrl, username := username, password := password,
              device := dev, services := services }

/-- Embedding of `LoadServices`: load the primary (IGD) tree, then load the
secondary (TR-064) tree into a fresh root, then copy every entry of the
secondary service map into the primary root's service map (overwriting
same-key entries) and return the primary root. Either load failing fails the
whole call. The TLS-configuration side effect for `https` base URLs touches
only the global transport and is not modelled. -/
def LoadServices (fetch : Fetcher) (baseurl username password : String) : Except String Root :=
  match rootLoad fetch baseurl username password with
  | .error e => .error e
  | .ok root =>
    match rootLoadTr64 fetch baseurl username password with
    | .error e => .error e
    | .ok rootTr64 =>
      .ok { root with
            services := rootTr64.services.foldl (fun m p => alInsert m p.1 p.2) root.services }

/-! ## General lemmas about the map and string helpers -/

theorem strAppend_assoc (a b c : String) : (a ++ b) ++ c = a ++ (b ++ c) := by
  cases a with
  | mk la =>
    cases b with
    | mk lb =>
      cases c with
      | mk lc =>
        show String.append (String.append ⟨la⟩ ⟨lb⟩) ⟨lc⟩
          = String.append ⟨la⟩ (String.append ⟨lb⟩ ⟨lc⟩)
        simp [String.append, List.append_assoc]

theorem alGet_foldl_init {α : Type} (m : List (String × α)) (k : String) (init : Option α) :
    m.foldl (fun acc p => if p.1 = k then some p.2 else acc) init
      = match alGet m k with
        | some v => some v
        | none => init := by
  induction m generalizing init with
  | nil => simp [alGet]
  | cons p ps ih =>
    have hl : (p :: ps).foldl (fun acc q => if q.1 = k then some q.2 else acc) init
        = ps.foldl (fun acc q => if q.1 = k then some q.2 else acc)
            (if p.1 = k then some p.2 else init) := rfl
    have hg : alGet (p :: ps) k
        = ps.foldl (fun acc q => if q.1 = k then some q.2 else acc)
            (if p.1 = k then some p.2 else none) := rfl
    rw [hl, hg, ih, ih]
    cases alGet ps k with
    | some v => rfl
    | none =>
      by_cases h : p.1 = k
      · rw [if_pos h, if_pos h]
      · rw [if_neg h, if_neg h]

theorem alGet_cons {α : Type} (p : String × α) (ps : List (String × α)) (k : String) :
    alGet (p :: ps) k
      = match alGet ps k with
        | some v => some v
        | none => if p.1 = k then some p.2 else none := by
  show ps.foldl _ (if p.1 = k then some p.2 else none) = _
  rw [alGet_foldl_init]

theorem alGet_append {α : Type} (m₁ m₂ : List (String × α)) (k : String) :
    alGet (m₁ ++ m₂) k
      = match alGet m₂ k with
        | some v => some v
        | none => alGet m₁ k := by
  show (m₁ ++ m₂).foldl _ none = _
  rw [List.foldl_append, alGet_foldl_init]
  rfl

theorem alGet_filter_ne_self {α : Type} (m : List (String × α)) (k : String) :
    alGet (m.filter (fun p => p.1 ≠ k)) k = none := by
  induction m with
  | nil => rfl
  | cons p ps ih =>
    rw [List.filter_cons]
    by_cases h : p.1 = k
    · simp only [h, ne_eq, not_true_eq_false, decide_False, Bool.false_eq_true, if_false]
      exact ih
    · simp only [ne_eq, h, not_false_eq_true, decide_True, if_true]
      rw [alGet_cons, ih]
      simp [h]

theorem alGet_filter_ne {α : Type} (m : List (String × α)) (k k' : String) (h : k' ≠ k) :
    alGet (m.filter (fun p => p.1 ≠ k)) k' = alGet m k' := by
  induction m with
  | nil => rfl
  | cons p ps ih =>
    rw [List.filter_cons]
    by_cases hp : p.1 = k
    · simp only [hp, ne_eq, not_true_eq_false, decide_False, Bool.false_eq_true, if_false]
      rw [ih, alGet_cons]
      have hpk : ¬ p.1 = k' := by rw [hp]; exact fun hc => h hc.symm
      simp only [hpk, if_false]
      cases alGet ps k' <;> rfl
    · simp only [ne_eq, hp, not_false_eq_true, decide_True, if_true]
      rw [alGet_cons, alGet_cons, ih]

theorem alGet_alInsert_self {α : Type} (m : List (String × α)) (k : String) (v : α) :
    alGet (alInsert m k v) k = some v := by
  rw [alInsert, alGet_append]
  have h1 : alGet [(k, v)] k = some v := by simp [alGet]
  rw [h1]

theorem alGet_alInsert_ne {α : Type} (m : List (String × α)) (k k' : String) (v : α)
    (h : k' ≠ k) :
    alGet (alInsert m k v) k' = alGet m k' := by
  rw [alInsert, alGet_append]
  have h1 : alGet [(k, v)] k' = none := by simp [alGet, Ne.symm h]
  rw [h1, alGet_filter_ne m k k' h]

theorem alGet_foldl_alInsert {α : Type} (entries : List (String × α))
    (m₀ : List (String × α)) (k : String) :
    alGet (entries.foldl (fun m p => alInsert m p.1 p.2) m₀) k
      = match alGet entries k with
        | some v => some v
        | none => alGet m₀ k := by
  induction entries generalizing m₀ with
  | nil => rfl
  | cons p ps ih =>
    show alGet (ps.foldl _ (alInsert m₀ p.1 p.2)) k = _
    rw [ih, alGet_cons]
    cases hps : alGet ps k with
    | some v => rfl
    | none =>
      by_cases h : p.1 = k
      · subst h; simp [alGet_alInsert_self]
      · simp [h, alGet_alInsert_ne m₀ p.1 k p.2 (fun hc => h hc.symm)]

/-! ## Claim theorems: value decoder -/

/-- C7: for the declared types `ui1`, `ui2` and `ui4`, the value decoder
parses the raw text as an unsigned 64-bit integer (`strconv.ParseUint` with
bit size 64); in particular `Decode("4294967296", "ui4")` succeeds with the
exact value 4294967296, which exceeds the 32-bit unsigned range. -/
theorem c7_unsigned_decode (s : String) (arg : Argument) (sv : StateVariable)
    (hsv : arg.stateVariable = some sv)
    (hdt : sv.dataType = "ui1" ∨ sv.dataType = "ui2" ∨ sv.dataType = "ui4") :
    (convertResult s arg
      = match parseUint64 s with
        | .error e => .error e
        | .ok n => .ok (.uint n))
    ∧ convertResult "4294967296" arg = .ok (.uint 4294967296)
    ∧ 2 ^ 32 ≤ 4294967296 := by
  obtain ⟨svn, svdt, svdv⟩ := sv
  rcases hdt with h | h | h <;> simp only at h <;> subst h <;>
    exact ⟨by simp only [convertResult, hsv], by simp only [convertResult, hsv]; rfl, by norm_num⟩

/-- Witness for C7 at a concrete `ui4` argument. -/
theorem c7_unsigned_decode_witness :
    convertResult "4294967296"
        { name := "NewX", direction := "out", relatedStateVariable := "X",
          stateVariable := some { name := "X", dataType := "ui4", defaultValue := "" } }
      = .ok (.uint 4294967296) :=
  (c7_unsigned_decode "4294967296"
    { name := "NewX", direction := "out", relatedStateVariable := "X",
      stateVariable := some { name := "X", dataType := "ui4", defaultValue := "" } }
    { name := "X", dataType := "ui4", defaultValue := "" }
    rfl (Or.inr (Or.inr rfl))).2.1

/-- C8: decoding any raw string at declared type `boolean` never errors and
yields `true` exactly when the string equals `"1"`; every other literal,
including `"0"`, decodes to `false`. -/
theorem c8_boolean_decode (s : String) (arg : Argument) (sv : StateVariable)
    (hsv : arg.stateVariable = some sv) (hdt : sv.dataType = "boolean") :
    convertResult s arg = .ok (.boolean (s == "1")) ∧ ((s == "1") = true ↔ s = "1") := by
  obtain ⟨svn, svdt, svdv⟩ := sv
  simp only at hdt
  subst hdt
  exact ⟨by simp only [convertResult, hsv], beq_iff_eq⟩

/-- Witness for C8 at the literals `"1"` and `"0"`. -/
theorem c8_boolean_decode_witness :
    convertResult "1"
        { name := "NewB", direction := "out", relatedStateVariable := "B",
          stateVariable := some { name := "B", dataType := "boolean", defaultValue := "" } }
      = .ok (.boolean true)
    ∧ convertResult "0"
        { name := "NewB", direction := "out", relatedStateVariable := "B",
          stateVariable := some { name := "B", dataType := "boolean", defaultValue := "" } }
      = .ok (.boolean false) := by
  constructor
  · have h := (c8_boolean_decode "1"
      { name := "NewB", direction := "out", relatedStateVariable := "B",
        stateVariable := some { name := "B", dataType := "boolean", defaultValue := "" } }
      { name := "B", dataType := "boolean", defaultValue := "" } rfl rfl).1
    simpa using h
  · have h := (c8_boolean_decode "0"
      { name := "NewB", direction := "out", relatedStateVariable := "B",
        stateVariable := some { name := "B", dataType := "boolean", defaultValue := "" } }
      { name := "B", dataType := "boolean", defaultValue := "" } rfl rfl).1
    simpa using h

/-! ## Claim theorems: digest authentication engine -/

theorem joinColon_six (a b c d e f : String) :
    joinColon [a, b, c, d, e, f]
      = a ++ ":" ++ b ++ ":" ++ c ++ ":" ++ d ++ ":" ++ e ++ ":" ++ f := by
  simp only [joinColon]
  simp only [strAppend_assoc]

theorem sprintf08x_one : sprintf08x 1 = "00000001" := rfl

/-- C1: for every Digest challenge whose parsed directives carry a realm, a
server nonce, qop exactly `auth` and an algorithm that is absent (empty) or
`MD5`, and for all credentials and request path, the computed header's
response digest is
`MD5hex(HA1:serverNonce:00000001:clientNonce:auth:HA2)` with
`HA1 = MD5hex(username:realm:password)` and
`HA2 = MD5hex(POST:requestPath)`, and the nonce-count field is the constant
`"00000001"` on every invocation (the counter is a local reset to one, so it
is never incremented across calls). -/
theorem c1_digest_response_formula (md5hex : String → String)
    (cnonce wwwAuth username password controlUrl realm snonce : String)
    (hpre : strStartsWith wwwAuth "Digest " = true)
    (halg : dget (parseDigestDirectives wwwAuth) "algorithm" = ""
          ∨ dget (parseDigestDirectives wwwAuth) "algorithm" = "MD5")
    (hqop : dget (parseDigestDirectives wwwAuth) "qop" = "auth")
    (hrealm : dget (parseDigestDirectives wwwAuth) "realm" = realm)
    (hnonce : dget (parseDigestDirectives wwwAuth) "nonce" = snonce) :
    ∃ parts : DigestParts,
      digestAuthParts md5hex cnonce wwwAuth username password controlUrl = .ok parts
      ∧ parts.response
          = md5hex (md5hex (username ++ ":" ++ realm ++ ":" ++ password)
              ++ ":" ++ snonce ++ ":" ++ "00000001" ++ ":" ++ cnonce ++ ":" ++ "auth"
              ++ ":" ++ md5hex ("POST:" ++ controlUrl))
      ∧ parts.nc = "00000001"
      ∧ getDigestAuthHeader md5hex cnonce wwwAuth username password controlUrl
          = .ok parts.header := by
  have hd : ∃ d, checkAlgorithm (parseDigestDirectives wwwAuth) = .ok d
      ∧ dget d "qop" = "auth" ∧ dget d "realm" = realm ∧ dget d "nonce" = snonce := by
    rcases halg with h | h
    · refine ⟨alInsert (parseDigestDirectives wwwAuth) "algorithm" "MD5", ?_, ?_, ?_, ?_⟩
      · simp [checkAlgorithm, h]
      · show (alGet (alInsert (parseDigestDirectives wwwAuth) "algorithm" "MD5") "qop").getD ""
          = "auth"
        rw [alGet_alInsert_ne _ "algorithm" "qop" _ (by decide)]
        exact hqop
      · show (alGet (alInsert (parseDigestDirectives wwwAuth) "algorithm" "MD5") "realm").getD ""
          = realm
        rw [alGet_alInsert_ne _ "algorithm" "realm" _ (by decide)]
        exact hrealm
      · show (alGet (alInsert (parseDigestDirectives wwwAuth) "algorithm" "MD5") "nonce").getD ""
          = snonce
        rw [alGet_alInsert_ne _ "algorithm" "nonce" _ (by decide)]
        exact hnonce
    · exact ⟨parseDigestDirectives wwwAuth, by simp [checkAlgorithm, h], hqop, hrealm, hnonce⟩
  obtain ⟨d, hchk, hq, hr, hn⟩ := hd
  simp only [getDigestAuthHeader, digestAuthParts, hpre, Bool.true_eq_false, if_false, hchk,
    hq, hr, hn, ne_eq, not_true_eq_false, if_false, Except.map]
  refine ⟨_, rfl, ?_, sprintf08x_one, rfl⟩
  rw [joinColon_six, sprintf08x_one]

/-- Witness for C1: a concrete challenge with realm, nonce and qop
directives, the identity function standing in for MD5 hex. -/
theorem c1_digest_response_formula_witness :
    ∃ parts : DigestParts,
      digestAuthParts (fun s => s) "beefcafe"
          "Digest realm=\"testrealm\", nonce=\"abc123\", qop=auth" "user" "pass" "/ctl"
        = .ok parts
      ∧ parts.response
          = (fun s => s) ((fun s => s) ("user" ++ ":" ++ "testrealm" ++ ":" ++ "pass")
              ++ ":" ++ "abc123" ++ ":" ++ "00000001" ++ ":" ++ "beefcafe" ++ ":" ++ "auth"
              ++ ":" ++ (fun s => s) ("POST:" ++ "/ctl"))
      ∧ parts.nc = "00000001"
      ∧ getDigestAuthHeader (fun s => s) "beefcafe"
          "Digest realm=\"testrealm\", nonce=\"abc123\", qop=auth" "user" "pass" "/ctl"
          = .ok parts.header :=
  c1_digest_response_formula (fun s => s) "beefcafe"
    "Digest realm=\"testrealm\", nonce=\"abc123\", qop=auth" "user" "pass" "/ctl"
    "testrealm" "abc123" (by decide) (Or.inl (by decide)) (by decide) (by decide) (by decide)

/-- C9 counterexample: in the challenge
`Digest realm="r", nonce="n", qop=auth, algorithm=` the algorithm directive
is present (a key `algorithm` is parsed) and its value differs from `MD5`
(it is empty), yet the engine succeeds and returns a header instead of
failing with an unsupported-scheme error, because the code treats an empty
parsed value exactly like the absent directive and defaults it to MD5. -/
theorem c9_counterexample :
    ((parseDigestDirectives
        "Digest realm=\"r\", nonce=\"n\", qop=auth, algorithm=").map Prod.fst).contains
        "algorithm" = true
    ∧ dget (parseDigestDirectives
        "Digest realm=\"r\", nonce=\"n\", qop=auth, algorithm=") "algorithm" ≠ "MD5"
    ∧ (getDigestAuthHeader (fun s => s) "00"
        "Digest realm=\"r\", nonce=\"n\", qop=auth, algorithm=" "u" "p" "/ctl").isOk
        = true := by
  decide

/-- C9 amended: for every Digest challenge, if the parsed algorithm directive
value is nonempty and differs from `MD5` (an empty parsed value counts as
absent and defaults to MD5), or if the parsed qop value is not exactly
`auth`, the engine fails with an error and returns no header; and whenever
the algorithm value is empty (in particular when the directive is absent)
and qop is `auth`, the computation proceeds and returns a header. -/
theorem c9_amended_unsupported_scheme (md5hex : String → String)
    (cnonce wwwAuth username password controlUrl : String)
    (hpre : strStartsWith wwwAuth "Digest " = true) :
    ((dget (parseDigestDirectives wwwAuth) "algorithm" ≠ ""
        ∧ dget (parseDigestDirectives wwwAuth) "algorithm" ≠ "MD5")
      ∨ dget (parseDigestDirectives wwwAuth) "qop" ≠ "auth"
      → ∃ e, getDigestAuthHeader md5hex cnonce wwwAuth username password controlUrl
          = .error e)
    ∧ (dget (parseDigestDirectives wwwAuth) "algorithm" = ""
        ∧ dget (parseDigestDirectives wwwAuth) "qop" = "auth"
      → ∃ h, getDigestAuthHeader md5hex cnonce wwwAuth username password controlUrl
          = .ok h) := by
  constructor
  · rintro (⟨hne, hnmd5⟩ | hqop)
    · refine ⟨"digest algorithm not supported: "
        ++ dget (parseDigestDirectives wwwAuth) "algorithm" ++ " != MD5", ?_⟩
      simp only [getDigestAuthHeader, digestAuthParts, hpre, Bool.true_eq_false, if_false,
        checkAlgorithm, hne, hnmd5, if_neg hne, if_neg hnmd5, Except.map]
    · by_cases halg : dget (parseDigestDirectives wwwAuth) "algorithm" = ""
      · refine ⟨"digest qop not supported: "
          ++ dget (alInsert (parseDigestDirectives wwwAuth) "algorithm" "MD5") "qop"
          ++ " != auth", ?_⟩
        have hq2 : dget (alInsert (parseDigestDirectives wwwAuth) "algorithm" "MD5") "qop"
            = dget (parseDigestDirectives wwwAuth) "qop" := by
          show (alGet (alInsert (parseDigestDirectives wwwAuth) "algorithm" "MD5") "qop").getD ""
            = _
          rw [alGet_alInsert_ne _ "algorithm" "qop" _ (by decide)]
          rfl
        simp only [getDigestAuthHeader, digestAuthParts, hpre, Bool.true_eq_false, if_false,
          checkAlgorithm, halg, if_pos halg, hq2, hqop, ne_eq, not_false_eq_true, if_true,
          Except.map]
      · by_cases hmd5 : dget (parseDigestDirectives wwwAuth) "algorithm" = "MD5"
        · refine ⟨"digest qop not supported: "
            ++ dget (parseDigestDirectives wwwAuth) "qop" ++ " != auth", ?_⟩
          simp only [getDigestAuthHeader, digestAuthParts, hpre, Bool.true_eq_false, if_false,
            checkAlgorithm, if_neg halg, if_pos hmd5, hqop, ne_eq, not_false_eq_true, if_true,
            Except.map]
        · refine ⟨"digest algorithm not supported: "
            ++ dget (parseDigestDirectives wwwAuth) "algorithm" ++ " != MD5", ?_⟩
          simp only [getDigestAuthHeader, digestAuthParts, hpre, Bool.true_eq_false, if_false,
            checkAlgorithm, if_neg halg, if_neg hmd5, Except.map]
  · rintro ⟨halg, hqop⟩
    have hq2 : dget (alInsert (parseDigestDirectives wwwAuth) "algorithm" "MD5") "qop"
        = dget (parseDigestDirectives wwwAuth) "qop" := by
      show (alGet (alInsert (parseDigestDirectives wwwAuth) "algorithm" "MD5") "qop").getD ""
        = _
      rw [alGet_alInsert_ne _ "algorithm" "qop" _ (by decide)]
      rfl
    simp only [getDigestAuthHeader, digestAuthParts, hpre, Bool.true_eq_false, if_false,
      checkAlgorithm, if_pos halg, hq2, hqop, ne_eq, not_true_eq_false, if_false, Except.map]
    exact ⟨_, rfl⟩

/-- Witness for C9 amended: a challenge advertising qop `auth-int` is
rejected, one with no algorithm directive and qop `auth` is accepted. -/
theorem c9_amended_unsupported_scheme_witness :
    (∃ e, getDigestAuthHeader (fun s => s) "00"
        "Digest realm=\"r\", nonce=\"n\", qop=auth-int" "u" "p" "/ctl" = .error e)
    ∧ (∃ h, getDigestAuthHeader (fun s => s) "00"
        "Digest realm=\"r\", nonce=\"n\", qop=auth" "u" "p" "/ctl" = .ok h) :=
  ⟨(c9_amended_unsupported_scheme (fun s => s) "00"
      "Digest realm=\"r\", nonce=\"n\", qop=auth-int" "u" "p" "/ctl" (by decide)).1
      (Or.inr (by decide)),
   (c9_amended_unsupported_scheme (fun s => s) "00"
      "Digest realm=\"r\", nonce=\"n\", qop=auth" "u" "p" "/ctl" (by decide)).2
      ⟨by decide, by decide⟩⟩

/-! ## Claim theorems: SOAP response parsing -/

theorem CallWithArguments_ok200 (md5hex : String → String) (cnonce : String)
    (r : SoapHttpResponse) (rest' : List (Except String SoapHttpResponse))
    (baseUrl username password serviceType controlUrl : String)
    (a : Action) (actionArgs : List ActionArgument)
    (h200 : r.status = 200) :
    CallWithArguments md5hex cnonce (.ok r :: rest') baseUrl username password serviceType
        controlUrl a actionArgs
      = (parseSoapResponse a r.bodyTokens,
         [createCallHttpRequest baseUrl serviceType controlUrl a actionArgs]) := by
  have h401 : ¬ r.status = 401 := by rw [h200]; decide
  have hget : ((Except.ok r :: rest').get? 0).getD (Except.error "transport: no response")
      = Except.ok r := rfl
  simp only [CallWithArguments, finishCall, hget]
  rw [if_neg h401, if_neg (show ¬ r.status ≠ 200 by rw [h200]; decide)]

/-- C10: while parsing a status-200 response, if the token immediately
following a start element bound in the action's argument map is neither
character data nor an end element (a nested start element or any other token
kind such as a comment), `parseSoapResponse` — and hence the call — aborts
with the error `invalid SOAP response` and yields no result, instead of
skipping the element. -/
theorem c10_invalid_soap_response (a : Action) (nm : String) (arg : Argument)
    (t2 : XmlToken) (rest : List XmlToken) (res : ResultMap)
    (harg : alGet a.argumentMap nm = some arg)
    (ht2 : (∃ n2, t2 = .startElement n2) ∨ t2 = .other) :
    parseSoapLoop a (.startElement nm :: t2 :: rest) res = .error "invalid SOAP response"
    ∧ (∀ (md5hex : String → String) (cnonce : String)
        (rest' : List (Except String SoapHttpResponse))
        (baseUrl username password serviceType controlUrl : String)
        (actionArgs : List ActionArgument) (r : SoapHttpResponse),
        r.status = 200
        → r.bodyTokens = .startElement nm :: t2 :: rest
        → (CallWithArguments md5hex cnonce (.ok r :: rest') baseUrl username password
            serviceType controlUrl a actionArgs).1 = .error "invalid SOAP response") := by
  have h1 : parseSoapLoop a (.startElement nm :: t2 :: rest) res
      = .error "invalid SOAP response" := by
    rcases ht2 with ⟨n2, h⟩ | h <;> subst h <;> simp only [parseSoapLoop, harg]
  refine ⟨h1, ?_⟩
  intro md5hex cnonce rest' baseUrl username password serviceType controlUrl actionArgs r
    h200 htk
  rw [CallWithArguments_ok200 md5hex cnonce r rest' baseUrl username password serviceType
    controlUrl a actionArgs h200]
  show parseSoapResponse a r.bodyTokens = _
  rw [htk]
  show parseSoapLoop a _ [] = _
  rcases ht2 with ⟨n2, h⟩ | h <;> subst h <;> simp only [parseSoapLoop, harg]

/-- Concrete string state variable used by witnesses. -/
def fooStateVar : StateVariable :=
  { name := "Foo", dataType := "string", defaultValue := "" }

/-- Concrete output argument related to `fooStateVar`, already resolved. -/
def newFooArg : Argument :=
  { name := "NewFoo", direction := "out", relatedStateVariable := "Foo",
    stateVariable := some fooStateVar }

/-- Concrete single-output-argument action used by witnesses. -/
def getFooAction : Action :=
  { name := "GetFoo", arguments := [newFooArg], argumentMap := [("NewFoo", newFooArg)] }

/-- Witness for C10: a concrete action whose response nests a child element
inside a matched output element. -/
theorem c10_invalid_soap_response_witness :
    parseSoapLoop getFooAction
        [.startElement "NewFoo", .startElement "Child", .charData "x",
         .endElement "Child", .endElement "NewFoo"] []
      = .error "invalid SOAP response" :=
  (c10_invalid_soap_response getFooAction "NewFoo" newFooArg
    (.startElement "Child") [.charData "x", .endElement "Child", .endElement "NewFoo"] []
    (by decide) (Or.inl ⟨"Child", rfl⟩)).1

/-! ## Claim theorems: authentication retry control flow -/

/-- C2: when the first response of a call is 401 Unauthorized: the initial
request never carries an Authorization header; if a WWW-Authenticate
challenge is present, both credentials are configured and the digest header
computes, the engine rebuilds the same envelope (the retried request differs
from the initial one only in the Authorization header) and resends exactly
once; if credentials are not configured, the call fails with the
authentication-required error and sends no second request. -/
theorem c2_call_auth_retry (md5hex : String → String) (cnonce : String)
    (r1 : SoapHttpResponse) (rest' : List (Except String SoapHttpResponse))
    (baseUrl username password serviceType controlUrl : String)
    (a : Action) (actionArgs : List ActionArgument)
    (h401 : r1.status = 401) :
    (createCallHttpRequest baseUrl serviceType controlUrl a actionArgs).authorization = none
    ∧ (∀ h, r1.wwwAuthenticate ≠ "" → username ≠ "" → password ≠ ""
        → getDigestAuthHeader md5hex cnonce r1.wwwAuthenticate username password controlUrl
            = .ok h
        → (CallWithArguments md5hex cnonce (.ok r1 :: rest') baseUrl username password
             serviceType controlUrl a actionArgs).2
          = [createCallHttpRequest baseUrl serviceType controlUrl a actionArgs,
             { createCallHttpRequest baseUrl serviceType controlUrl a actionArgs with
               authorization := some h }])
    ∧ ((username = "" ∨ password = "")
        → CallWithArguments md5hex cnonce (.ok r1 :: rest') baseUrl username password
             serviceType controlUrl a actionArgs
          = (.error (a.name ++ ": Unauthorized, but no username and password given"),
             [createCallHttpRequest baseUrl serviceType controlUrl a actionArgs])) := by
  have hget : ((Except.ok r1 :: rest').get? 0).getD (Except.error "transport: no response")
      = Except.ok r1 := rfl
  refine ⟨rfl, ?_, ?_⟩
  · intro h hww hu hp hdg
    simp only [CallWithArguments, hget]
    rw [if_pos h401, if_pos ⟨hww, hu, hp⟩, hdg]
    cases hx : ((Except.ok r1 :: rest').get? 1).getD (Except.error "transport: no response") with
    | error e => simp [hx]
    | ok resp2 => simp [hx]
  · intro hcase
    have hcond : ¬ (r1.wwwAuthenticate ≠ "" ∧ username ≠ "" ∧ password ≠ "") := by
      rcases hcase with h | h
      · exact fun hc => hc.2.1 h
      · exact fun hc => hc.2.2 h
    simp only [CallWithArguments, hget]
    rw [if_pos h401, if_neg hcond]

/-- Witness for C2 at a concrete 401 response carrying a usable challenge,
with concrete credentials; the identity function stands in for MD5 hex. -/
theorem c2_call_auth_retry_witness :
    (CallWithArguments (fun s => s) "00"
        [.ok { status := 401, wwwAuthenticate := "Digest realm=\"r\", nonce=\"n\", qop=auth",
               bodyTokens := [], bodyFault := .error "empty" },
         .ok { status := 200, wwwAuthenticate := "", bodyTokens := [],
               bodyFault := .error "empty" }]
        "http://fb" "u" "p" "urn:svc" "/ctl" getFooAction []).2
      = [createCallHttpRequest "http://fb" "urn:svc" "/ctl" getFooAction [],
         { createCallHttpRequest "http://fb" "urn:svc" "/ctl" getFooAction [] with
           authorization := some ("Digest username=\"u\", realm=\"r\", nonce=\"n\", uri=\"/ctl\", cnonce=\"00\", nc=00000001, qop=auth, response=\"u:r:p:n:00000001:00:auth:POST:/ctl\", algorithm=MD5") }] :=
  (c2_call_auth_retry (fun s => s) "00"
    { status := 401, wwwAuthenticate := "Digest realm=\"r\", nonce=\"n\", qop=auth",
      bodyTokens := [], bodyFault := .error "empty" }
    [.ok { status := 200, wwwAuthenticate := "", bodyTokens := [], bodyFault := .error "empty" }]
    "http://fb" "u" "p" "urn:svc" "/ctl" getFooAction [] rfl).2.1
    "Digest username=\"u\", realm=\"r\", nonce=\"n\", uri=\"/ctl\", cnonce=\"00\", nc=00000001, qop=auth, response=\"u:r:p:n:00000001:00:auth:POST:/ctl\", algorithm=MD5"
    (by decide) (by decide) (by decide) (by decide)

/-! ## Claim C3: what the result of a call contains -/

/-- Modelled from the specification wording of the response-parsing step:
the text content of an element is the empty string when the next token ends
the element, the character data when the next token is text, and any other
next token is the invalid-SOAP-response condition (a decoder error or
exhausted stream surfaces as its own error). Returns the text and the
remaining stream. -/
def specReadText : List XmlToken → Except String (String × List XmlToken)
  | [] => .error "EOF"
  | .errTok e :: _ => .error e
  | .endElement _ :: rest => .ok ("", rest)
  | .charData s :: rest => .ok (s, rest)
  | .startElement _ :: _ => .error "invalid SOAP response"
  | .other :: _ => .error "invalid SOAP response"

theorem specReadText_length (ts rest2 : List XmlToken) (s : String)
    (h : specReadText ts = .ok (s, rest2)) : rest2.length < ts.length := by
  match ts, h with
  | .endElement n :: rest, h =>
    cases h
    simp
  | .charData c :: rest, h =>
    cases h
    simp

/-- Modelled from the specification wording of the response-parsing step:
the ordered list of entries obtained by taking each start element whose
local name matches one of the action's declared arguments, reading its text
content, decoding it with the value decoder at the argument's resolved
state-variable type, and pairing it with the state-variable name; elements
matching no known argument are skipped and cause no error. -/
def specCollect (a : Action) : List XmlToken → Except String (List (String × Value))
  | [] => .ok []
  | .errTok e :: _ => .error e
  | .startElement nm :: rest =>
    (match alGet a.argumentMap nm with
     | none => specCollect a rest
     | some arg =>
       match hread : specReadText rest with
       | .error e => .error e
       | .ok (text, rest2) =>
         match convertResult text arg with
         | .error e => .error e
         | .ok v =>
           match specCollect a rest2 with
           | .error e => .error e
           | .ok entries => .ok ((argStateVariableName arg, v) :: entries))
  | .endElement _ :: rest => specCollect a rest
  | .charData _ :: rest => specCollect a rest
  | .other :: rest => specCollect a rest
termination_by ts => ts.length
decreasing_by
  all_goals simp_wf
  all_goals try omega
  have := specReadText_length rest rest2 text hread
  omega

/-- Modelled from the specification wording: the result of parsing a
status-200 body is exactly the collected entries loaded into a fresh map
(later entries overwriting earlier ones of the same state-variable name, as
map stores do). -/
def specResult (a : Action) (body : List XmlToken) : Except String ResultMap :=
  match specCollect a body with
  | .error e => .error e
  | .ok entries => .ok (entries.foldl (fun m p => alInsert m p.1 p.2) [])

theorem parseSoapLoop_spec (a : Action) (ts : List XmlToken) (res : ResultMap) :
    parseSoapLoop a ts res
      = match specCollect a ts with
        | .error e => .error e
        | .ok entries => .ok (entries.foldl (fun m p => alInsert m p.1 p.2) res) := by
  induction ts, res using parseSoapLoop.induct a with
  | case1 res => simp [parseSoapLoop, specCollect]
  | case2 e tail x => simp [parseSoapLoop, specCollect]
  | case3 nm rest res harg ih =>
    rw [show parseSoapLoop a (.startElement nm :: rest) res = parseSoapLoop a rest res by
      simp [parseSoapLoop, harg]]
    rw [show specCollect a (.startElement nm :: rest) = specCollect a rest by
      simp [specCollect, harg]]
    exact ih
  | case4 nm res arg harg =>
    simp [parseSoapLoop, harg, specCollect, specReadText]
  | case5 nm res arg harg e tail =>
    simp [parseSoapLoop, harg, specCollect, specReadText]
  | case6 nm res arg harg n2 rest2 e hconv =>
    simp [parseSoapLoop, harg, specCollect, specReadText, hconv]
  | case7 nm res arg harg n2 rest2 v hconv ih =>
    rw [show parseSoapLoop a (.startElement nm :: .endElement n2 :: rest2) res
        = parseSoapLoop a rest2 (alInsert res (argStateVariableName arg) v) by
      simp [parseSoapLoop, harg, hconv]]
    rw [ih]
    rw [show specCollect a (.startElement nm :: .endElement n2 :: rest2)
        = (match specCollect a rest2 with
           | .error e => .error e
           | .ok entries => .ok ((argStateVariableName arg, v) :: entries)) by
      simp [specCollect, harg, specReadText, hconv]]
    cases specCollect a rest2 <;> rfl
  | case8 nm res arg harg s rest2 e hconv =>
    simp [parseSoapLoop, harg, specCollect, specReadText, hconv]
  | case9 nm res arg harg s rest2 v hconv ih =>
    rw [show parseSoapLoop a (.startElement nm :: .charData s :: rest2) res
        = parseSoapLoop a rest2 (alInsert res (argStateVariableName arg) v) by
      simp [parseSoapLoop, harg, hconv]]
    rw [ih]
    rw [show specCollect a (.startElement nm :: .charData s :: rest2)
        = (match specCollect a rest2 with
           | .error e => .error e
           | .ok entries => .ok ((argStateVariableName arg, v) :: entries)) by
      simp [specCollect, harg, specReadText, hconv]]
    cases specCollect a rest2 <;> rfl
  | case10 nm res arg harg localName tail =>
    simp [parseSoapLoop, harg, specCollect, specReadText]
  | case11 nm res arg harg tail =>
    simp [parseSoapLoop, harg, specCollect, specReadText]
  | case12 localName rest res ih =>
    rw [show parseSoapLoop a (.endElement localName :: rest) res = parseSoapLoop a rest res
      from rfl]
    rw [show specCollect a (.endElement localName :: rest) = specCollect a rest by
      simp [specCollect]]
    exact ih
  | case13 s rest res ih =>
    rw [show parseSoapLoop a (.charData s :: rest) res = parseSoapLoop a rest res from rfl]
    rw [show specCollect a (.charData s :: rest) = specCollect a rest by simp [specCollect]]
    exact ih
  | case14 rest res ih =>
    rw [show parseSoapLoop a (.other :: rest) res = parseSoapLoop a rest res from rfl]
    rw [show specCollect a (.other :: rest) = specCollect a rest by simp [specCollect]]
    exact ih

/-- Concrete string state variable for the C3 counterexample. -/
def barStateVar : StateVariable :=
  { name := "Bar", dataType := "string", defaultValue := "" }

/-- Concrete input-direction argument related to `barStateVar`, resolved as
the loader resolves every argument regardless of direction. -/
def inBarArg : Argument :=
  { name := "NewBar", direction := "in", relatedStateVariable := "Bar",
    stateVariable := some barStateVar }

/-- Concrete action whose single argument has direction `in`. -/
def setBarAction : Action :=
  { name := "SetBar", arguments := [inBarArg], argumentMap := [("NewBar", inBarArg)] }

/-- C3 counterexample: for the action `setBarAction`, whose only argument is
input-direction (it declares no output arguments at all), a status-200
response containing the element `NewBar` yields a nonempty result: the
parser captures the element through the `ArgumentMap`, which indexes every
argument of the action regardless of direction, contradicting the claim
that only elements matching declared output arguments are captured. The
first conjunct shows the action as built by the loader's own resolution
step from its freshly decoded form. -/
theorem c3_counterexample :
    resolveAction [barStateVar]
        { name := "SetBar",
          arguments := [{ name := "NewBar", direction := "in",
                          relatedStateVariable := "Bar", stateVariable := none }],
          argumentMap := [] }
      = setBarAction
    ∧ setBarAction.arguments.filter (fun arg => arg.direction == "out") = []
    ∧ (CallWithArguments (fun s => s) "00"
        [.ok { status := 200, wwwAuthenticate := "",
               bodyTokens := [.startElement "NewBar", .charData "x", .endElement "NewBar"],
               bodyFault := .error "empty" }]
        "http://fb" "" "" "urn:svc" "/ctl" setBarAction []).1
      = .ok [("Bar", .str "x")] := by
  decide

/-- C3 amended: for every action and every status-200 response body, the
result returned by the call contains exactly the entries obtained by taking
each XML start element whose local name matches one of the action's declared
arguments (of either direction, since the argument map indexes them all),
reading its text content (empty string if the element is self-closing),
decoding it with the value decoder at the argument's resolved state-variable
type, and storing it keyed by the state-variable name (not the argument
name); elements matching no known argument are ignored and cause no
error. -/
theorem c3_amended_result_contents (md5hex : String → String) (cnonce : String)
    (r : SoapHttpResponse) (rest' : List (Except String SoapHttpResponse))
    (baseUrl username password serviceType controlUrl : String)
    (a : Action) (actionArgs : List ActionArgument)
    (h200 : r.status = 200) :
    (CallWithArguments md5hex cnonce (.ok r :: rest') baseUrl username password serviceType
        controlUrl a actionArgs).1
      = specResult a r.bodyTokens := by
  rw [CallWithArguments_ok200 md5hex cnonce r rest' baseUrl username password serviceType
    controlUrl a actionArgs h200]
  show parseSoapResponse a r.bodyTokens = _
  rw [parseSoapResponse, parseSoapLoop_spec, specResult]

/-- Witness for C3 amended: the synthetic `GetFoo` action of the
specification's test vector; the call on the body
`GetFooResponse / NewFoo / bar` equals the specification-side result, and
evaluating the call shows the concrete map `Foo maps-to bar`. -/
theorem c3_amended_result_contents_witness :
    (CallWithArguments (fun s => s) "00"
        [.ok { status := 200, wwwAuthenticate := "",
               bodyTokens := [.startElement "GetFooResponse", .startElement "NewFoo",
                              .charData "bar", .endElement "NewFoo",
                              .endElement "GetFooResponse"],
               bodyFault := .error "empty" }]
        "http://fb" "" "" "urn:svc" "/ctl" getFooAction []).1
      = specResult getFooAction
          [.startElement "GetFooResponse", .startElement "NewFoo", .charData "bar",
           .endElement "NewFoo", .endElement "GetFooResponse"]
    ∧ (CallWithArguments (fun s => s) "00"
        [.ok { status := 200, wwwAuthenticate := "",
               bodyTokens := [.startElement "GetFooResponse", .startElement "NewFoo",
                              .charData "bar", .endElement "NewFoo",
                              .endElement "GetFooResponse"],
               bodyFault := .error "empty" }]
        "http://fb" "" "" "urn:svc" "/ctl" getFooAction []).1
      = .ok [("Foo", .str "bar")] :=
  ⟨c3_amended_result_contents (fun s => s) "00"
      { status := 200, wwwAuthenticate := "",
        bodyTokens := [.startElement "GetFooResponse", .startElement "NewFoo",
                       .charData "bar", .endElement "NewFoo", .endElement "GetFooResponse"],
        bodyFault := .error "empty" }
      [] "http://fb" "" "" "urn:svc" "/ctl" getFooAction [] rfl,
   by decide⟩

/-! ## Claim C4: all-or-nothing loading -/

/-- Concrete fetcher for the C4 counterexample: both description documents
come back with non-success HTTP statuses but well-formed bodies. -/
def c4Fetcher : Fetcher := fun url =>
  if url = "http://fb/igddesc.xml" then .ok { status := 404, body := .deviceDoc emptyDevice }
  else if url = "http://fb/tr64desc.xml" then
    .ok { status := 500, body := .deviceDoc emptyDevice }
  else .error "unexpected URL"

/-- C4 counterexample: both description fetches return non-success HTTP
statuses (404 and 500) with parseable bodies, yet `LoadServices` succeeds:
the loader never inspects status codes, so a non-success HTTP status does
not abort the load as the claim states. -/
theorem c4_counterexample :
    (c4Fetcher "http://fb/igddesc.xml").map FetchResponse.status = .ok 404
    ∧ (c4Fetcher "http://fb/tr64desc.xml").map FetchResponse.status = .ok 500
    ∧ (LoadServices c4Fetcher "http://fb" "" "").isOk = true := by
  decide

/-- C4 amended: the load is all-or-nothing with respect to transport
failures and malformed documents: `LoadServices` returns a root exactly when
both the primary and the secondary load succeed (so no partial tree is ever
returned), a secondary-description transport failure after a successful
primary load fails the whole call, and a primary-description transport
failure or a malformed primary document fails it as well; HTTP status codes,
however, are never inspected. -/
theorem c4_amended_all_or_nothing (fetch : Fetcher) (baseurl username password : String) :
    (∀ r, LoadServices fetch baseurl username password = .ok r
       ↔ ∃ r1 r2, rootLoad fetch baseurl username password = .ok r1
            ∧ rootLoadTr64 fetch baseurl username password = .ok r2
            ∧ r = { r1 with services :=
                r2.services.foldl (fun m p => alInsert m p.1 p.2) r1.services })
    ∧ (∀ r1 e, rootLoad fetch baseurl username password = .ok r1
        → fetch (baseurl ++ "/tr64desc.xml") = .error e
        → LoadServices fetch baseurl username password = .error e)
    ∧ (∀ e, fetch (baseurl ++ "/igddesc.xml") = .error e
        → LoadServices fetch baseurl username password = .error e)
    ∧ (∀ resp e, fetch (baseurl ++ "/igddesc.xml") = .ok resp
        → resp.body = .malformed e
        → LoadServices fetch baseurl username password = .error e) := by
  refine ⟨?_, ?_, ?_, ?_⟩
  · intro r
    constructor
    · intro hok
      cases h1 : rootLoad fetch baseurl username password with
      | error e => rw [LoadServices, h1] at hok; cases hok
      | ok r1 =>
        cases h2 : rootLoadTr64 fetch baseurl username password with
        | error e => rw [LoadServices, h1, h2] at hok; cases hok
        | ok r2 =>
          rw [LoadServices, h1, h2] at hok
          cases hok
          exact ⟨r1, r2, rfl, rfl, rfl⟩
    · rintro ⟨r1, r2, h1, h2, hr⟩
      rw [LoadServices, h1, h2, hr]
  · intro r1 e h1 hf
    rw [LoadServices, h1, rootLoadTr64, hf]
  · intro e hf
    rw [LoadServices, rootLoad, hf]
  · intro resp e hf hb
    simp only [LoadServices, rootLoad, hf, hb, decodeDeviceDoc]

/-- Witness for C4 amended: the primary tree loads successfully yet the
whole call fails because the secondary description fetch fails at transport
level. -/
theorem c4_amended_all_or_nothing_witness :
    LoadServices
        (fun url => if url = "http://fb/igddesc.xml" then
            .ok { status := 200, body := .deviceDoc emptyDevice }
          else .error "dial tcp: connection refused")
        "http://fb" "" ""
      = .error "dial tcp: connection refused" :=
  (c4_amended_all_or_nothing
      (fun url => if url = "http://fb/igddesc.xml" then
          .ok { status := 200, body := .deviceDoc emptyDevice }
        else .error "dial tcp: connection refused")
      "http://fb" "" "").2.1
    { baseUrl := "http://fb", username := "", password := "",
      device := emptyDevice, services := [] }
    "dial tcp: connection refused" rfl rfl

/-! ## Claim C5: unresolved state-variable references -/

/-- Concrete service descriptor for the C5 counterexample. -/
def c5Service : Service :=
  { serviceType := "urn:SvcA", serviceId := "idA", controlUrl := "/ctlA",
    eventSubUrl := "/evA", scpdUrl := "/scpdA.xml", actions := [], stateVariables := [] }

/-- Concrete SCPD action whose argument references a state variable that the
service does not declare. -/
def c5ScpdAction : Action :=
  { name := "GetVal",
    arguments := [{ name := "NewVal", direction := "out",
                    relatedStateVariable := "Missing", stateVariable := none }],
    argumentMap := [] }

/-- Concrete fetcher for the C5 counterexample. -/
def c5Fetcher : Fetcher := fun url =>
  if url = "http://fb/igddesc.xml" then
    .ok { status := 200,
          body := .deviceDoc (.mk "dt" "fn" "mf" "mu" "md" "mn" "mnum" "murl" "udn" "purl"
            [c5Service] []) }
  else if url = "http://fb/scpdA.xml" then
    .ok { status := 200, body := .scpdDoc [c5ScpdAction] [] }
  else if url = "http://fb/tr64desc.xml" then
    .ok { status := 200, body := .deviceDoc emptyDevice }
  else .error "unexpected URL"

/-- C5 counterexample: the SCPD declares an action argument whose related
state variable `Missing` has no match among the service's state variables
(there are none), yet the load completes successfully and the argument is
simply left with an unresolved (nil) state-variable reference — there is no
unresolved-reference load error. -/
theorem c5_counterexample :
    (LoadServices c5Fetcher "http://fb" "" "").isOk = true
    ∧ ((LoadServices c5Fetcher "http://fb" "" "").toOption.bind
          (fun r => alGet r.services "urn:SvcA")).bind
        (fun s => alGet s.actions "GetVal")
      = some { name := "GetVal",
               arguments := [{ name := "NewVal", direction := "out",
                               relatedStateVariable := "Missing", stateVariable := none }],
               argumentMap := [("NewVal",
                 { name := "NewVal", direction := "out",
                   relatedStateVariable := "Missing", stateVariable := none })] } := by
  decide

theorem resolve_foldl_none (rel : String) (svars : List StateVariable)
    (init : Option StateVariable) :
    svars.foldl (fun acc sv => if rel = sv.name then some sv else acc) init = none
      ↔ init = none ∧ ∀ sv ∈ svars, sv.name ≠ rel := by
  induction svars generalizing init with
  | nil => simp
  | cons sv0 rest ih =>
    show rest.foldl _ (if rel = sv0.name then some sv0 else init) = none ↔ _
    rw [ih]
    by_cases h : rel = sv0.name
    · simp [h]
    · have h2 : sv0.name ≠ rel := fun hc => h hc.symm
      simp [h, h2]

/-- C5 amended: an argument whose related state-variable name has no exact
match among its service's state variables does not fail the load: whenever
the SCPD fetch and decode succeed, the per-service load step succeeds
regardless of resolution, and the resolution loop leaves the argument's
state-variable reference unresolved (nil) exactly when no declared state
variable carries the referenced name. -/
theorem c5_amended_unresolved_is_silent (fetch : Fetcher) (baseUrl : String)
    (acc : List (String × Service)) (s : Service) (resp : FetchResponse)
    (acts : List Action) (svars : List StateVariable)
    (hf : fetch (baseUrl ++ s.scpdUrl) = .ok resp)
    (hd : decodeScpdDoc resp.body = .ok (acts, svars)) :
    (∃ m, loadSCPDService fetch baseUrl acc s = .ok m)
    ∧ ∀ arg : Argument, arg.stateVariable = none →
        ((resolveArgument svars arg).stateVariable = none
          ↔ ∀ sv ∈ svars, sv.name ≠ arg.relatedStateVariable) := by
  constructor
  · simp only [loadSCPDService, hf, hd]
    exact ⟨_, rfl⟩
  · intro arg hnil
    show (svars.foldl (fun acc sv => if arg.relatedStateVariable = sv.name then some sv else acc)
        arg.stateVariable) = none ↔ _
    rw [hnil, resolve_foldl_none]
    simp

/-- Witness for C5 amended at the concrete C5 fetcher and service. -/
theorem c5_amended_unresolved_is_silent_witness :
    (∃ m, loadSCPDService c5Fetcher "http://fb" [] c5Service = .ok m)
    ∧ ∀ arg : Argument, arg.stateVariable = none →
        ((resolveArgument [] arg).stateVariable = none
          ↔ ∀ sv ∈ ([] : List StateVariable), sv.name ≠ arg.relatedStateVariable) :=
  c5_amended_unresolved_is_silent c5Fetcher "http://fb" [] c5Service
    { status := 200, body := .scpdDoc [c5ScpdAction] [] } [c5ScpdAction] []
    rfl rfl

/-! ## Claim C6: secondary services replace primary services -/

/-- C6: after a successful `LoadServices`, every service-type key present in
both the primary (IGD) and the secondary (TR-064) service maps is mapped in
the returned root to the service loaded from the secondary tree — the whole
`Service` value, so the secondary entry replaces the primary field-for-field
rather than being merged with it. -/
theorem c6_secondary_overwrites_primary (fetch : Fetcher)
    (baseurl username password k : String) (r r1 r2 : Root) (s1 s2 : Service)
    (hload : LoadServices fetch baseurl username password = .ok r)
    (h1 : rootLoad fetch baseurl username password = .ok r1)
    (h2 : rootLoadTr64 fetch baseurl username password = .ok r2)
    (hk1 : alGet r1.services k = some s1)
    (hk2 : alGet r2.services k = some s2) :
    alGet r.services k = some s2 := by
  rw [LoadServices, h1, h2] at hload
  cases hload
  show alGet (r2.services.foldl (fun m p => alInsert m p.1 p.2) r1.services) k = some s2
  rw [alGet_foldl_alInsert, hk2]

/-- Service declared by the primary description in the C6 witness. -/
def c6ServiceIgd : Service :=
  { serviceType := "urn:Dup", serviceId := "igd", controlUrl := "/c1", eventSubUrl := "",
    scpdUrl := "/scpd1.xml", actions := [], stateVariables := [] }

/-- Service with the same service type declared by the secondary
description in the C6 witness. -/
def c6ServiceTr64 : Service :=
  { serviceType := "urn:Dup", serviceId := "tr64", controlUrl := "/c2", eventSubUrl := "",
    scpdUrl := "/scpd2.xml", actions := [], stateVariables := [] }

/-- Concrete fetcher for the C6 witness: both trees declare a service of
type `urn:Dup`. -/
def c6Fetcher : Fetcher := fun url =>
  if url = "http://fb/igddesc.xml" then
    .ok { status := 200,
          body := .deviceDoc (.mk "" "" "" "" "" "" "" "" "" "" [c6ServiceIgd] []) }
  else if url = "http://fb/tr64desc.xml" then
    .ok { status := 200,
          body := .deviceDoc (.mk "" "" "" "" "" "" "" "" "" "" [c6ServiceTr64] []) }
  else if url = "http://fb/scpd1.xml" then .ok { status := 200, body := .scpdDoc [] [] }
  else if url = "http://fb/scpd2.xml" then .ok { status := 200, body := .scpdDoc [] [] }
  else .error "unexpected URL"

/-- Witness for C6: loading the C6 fetcher maps `urn:Dup` to the secondary
tree's service. -/
theorem c6_secondary_overwrites_primary_witness :
    ∃ r, LoadServices c6Fetcher "http://fb" "u" "p" = .ok r
      ∧ alGet r.services "urn:Dup" = some c6ServiceTr64 :=
  ⟨{ baseUrl := "http://fb", username := "u", password := "p",
     device := .mk "" "" "" "" "" "" "" "" "" "" [c6ServiceIgd] [],
     services := [("urn:Dup", c6ServiceTr64)] },
   rfl,
   c6_secondary_overwrites_primary c6Fetcher "http://fb" "u" "p" "urn:Dup"
     { baseUrl := "http://fb", username := "u", password := "p",
       device := .mk "" "" "" "" "" "" "" "" "" "" [c6ServiceIgd] [],
       services := [("urn:Dup", c6ServiceTr64)] }
     { baseUrl := "http://fb", username := "u", password := "p",
       device := .mk "" "" "" "" "" "" "" "" "" "" [c6ServiceIgd] [],
       services := [("urn:Dup", c6ServiceIgd)] }
     { baseUrl := "http://fb", username := "u", password := "p",
       device := .mk "" "" "" "" "" "" "" "" "" "" [c6ServiceTr64] [],
       services := [("urn:Dup", c6ServiceTr64)] }
     c6ServiceIgd c6ServiceTr64 rfl rfl rfl (by decide) (by decide)⟩

end FritzboxUpnp
